import Mathlib

set_option autoImplicit false

/-!
Verification of the servo and SPI wrappers of `wpilib` (files
`src/wpilib/src/servo.rs` and `src/wpilib/src/spi.rs`).

Rust `f64` values are embedded as rationals `ℚ` (the arithmetic the code
performs — clamping and one linear rescaling with the constant divisor 180 —
is exact). `HalResult<T>` is embedded as an explicit ok/error sum, and a
Rust `panic` (from `.unwrap()` on an `Err`) is a third, distinguished
outcome `RustOutcome.panicked`.
-/

/-- Embedding of `HalResult<T> = Result<T, HalError>`; a `HalError` carries
the nonzero HAL status code. -/
inductive HalResult (α : Type) where
  | ok : α → HalResult α
  | error : Int → HalResult α
deriving DecidableEq, Repr

/-- Outcome of a Rust call that may return normally, return an error, or
panic (via `.unwrap()` on an `Err`). -/
inductive RustOutcome (α : Type) where
  | ok : α → RustOutcome α
  | err : Int → RustOutcome α
  | panicked : RustOutcome α
deriving DecidableEq, Repr

/-- `PWM::PeriodMultiplier` (the variants used by this code). -/
inductive PeriodMultiplier where
  | Multiplier1x
  | Multiplier2x
  | Multiplier4x
deriving DecidableEq, Repr

/-- The five pulse-width bound values passed to `PWM::set_bounds`
`(max, deadband_max, center, deadband_min, min)`. -/
structure Bounds where
  bMax : ℚ
  bDeadbandMax : ℚ
  bCenter : ℚ
  bDeadbandMin : ℚ
  bMin : ℚ
deriving DecidableEq, Repr

/-- Modelled from the spec: the external hardware-abstraction collaborator
behind `Servo` (the `PWM` type, whose source is not part of the analysed
files). Per the spec's external-interface contract it stores and returns the
values it is given: the last commanded normalized position, raw pulse value,
speed, period multiplier, deadband-elimination flag and pulse bounds. The
field `halErr` injects an external-layer failure: when it is `some e`, every
fallible PWM call fails with HAL error `e` and stores nothing. -/
structure PWM where
  channel : Int
  halErr : Option Int
  storedPosition : ℚ
  storedRaw : Int
  storedSpeed : ℚ
  period_multiplier : PeriodMultiplier
  eliminate_deadband : Bool
  bounds : Bounds
deriving DecidableEq, Repr

/-- Modelled from the spec: `set_position(channel, fraction)` stores the
normalized position in the external layer. -/
def PWM.set_position (p : PWM) (value : ℚ) : PWM × HalResult Unit :=
  match p.halErr with
  | some e => (p, .error e)
  | none => ({ p with storedPosition := value }, .ok ())

/-- Modelled from the spec: `get_position(channel)` returns the stored
normalized position. -/
def PWM.position (p : PWM) : HalResult ℚ :=
  match p.halErr with
  | some e => .error e
  | none => .ok p.storedPosition

/-- Modelled from the spec: `set_raw(channel, value)` drives an unscaled
pulse value. -/
def PWM.set_raw (p : PWM) (value : Int) : PWM × HalResult Unit :=
  match p.halErr with
  | some e => (p, .error e)
  | none => ({ p with storedRaw := value }, .ok ())

/-- Modelled from the spec: returns the stored raw pulse value. -/
def PWM.raw (p : PWM) : HalResult Int :=
  match p.halErr with
  | some e => .error e
  | none => .ok p.storedRaw

/-- Modelled from the spec: stores the commanded speed. -/
def PWM.set_speed (p : PWM) (sp : ℚ) : PWM × HalResult Unit :=
  match p.halErr with
  | some e => (p, .error e)
  | none => ({ p with storedSpeed := sp }, .ok ())

/-- Modelled from the spec: returns the stored speed. -/
def PWM.speed (p : PWM) : HalResult ℚ :=
  match p.halErr with
  | some e => .error e
  | none => .ok p.storedSpeed

/-- Modelled from the spec: `set_disabled` drives a zero pulse, so the
stored raw command becomes 0. -/
def PWM.set_disabled (p : PWM) : PWM × HalResult Unit :=
  match p.halErr with
  | some e => (p, .error e)
  | none => ({ p with storedRaw := 0 }, .ok ())

/-- Modelled from the spec: `set_period_multiplier(channel, multiplier)`
stores the multiplier. -/
def PWM.set_period_multiplier (p : PWM) (m : PeriodMultiplier) :
    PWM × HalResult Unit :=
  match p.halErr with
  | some e => (p, .error e)
  | none => ({ p with period_multiplier := m }, .ok ())

/-- Modelled from the spec: stores the deadband-elimination flag. -/
def PWM.enable_deadband_elimination (p : PWM) (b : Bool) :
    PWM × HalResult Unit :=
  match p.halErr with
  | some e => (p, .error e)
  | none => ({ p with eliminate_deadband := b }, .ok ())

/-- Modelled from the spec: `set_bounds` stores the five pulse-width bound
values. -/
def PWM.set_bounds (p : PWM) (bMax dbMax center dbMin bMin : ℚ) :
    PWM × HalResult Unit :=
  match p.halErr with
  | some e => (p, .error e)
  | none => ({ p with bounds := ⟨bMax, dbMax, center, dbMin, bMin⟩ }, .ok ())

/-- Modelled from the spec: zero-latch pass-through (no stored state in this
model). -/
def PWM.set_zero_latch (p : PWM) : PWM × HalResult Unit :=
  match p.halErr with
  | some e => (p, .error e)
  | none => (p, .ok ())

/-- `pub struct Servo` from `servo.rs`: a PWM handle plus the per-instance
copies of the angle and pulse constants. -/
structure Servo where
  pwm : PWM
  k_max_servo_angle : ℚ
  k_min_servo_angle : ℚ
  k_default_max_servo_pwm : ℚ
  k_default_min_servo_pwm : ℚ
deriving DecidableEq, Repr

/-- The free identifier `k_max_servo_angle` read by `Servo::max_angle`
(the constant fixed by `Servo::new`); named with a `Const` suffix because the
`Servo` structure already has a field of the source name. -/
def kMaxServoAngleConst : ℚ := 180

/-- The free identifier `k_min_servo_angle` read by `Servo::min_angle` and
`Servo::angle`. -/
def kMinServoAngleConst : ℚ := 0

/-- The free call `get_servo_angle_range()` used by `Servo::angle`. -/
def servoAngleRangeConst : ℚ := kMaxServoAngleConst - kMinServoAngleConst

/-- `Servo::new`. The result of the external `PWM::new(channel)` call is
injected as `pwm_new_result`; the source calls `.unwrap()` on it, so an
`Err` makes construction panic rather than return the error. The results of
the `set_bounds` and `set_period_multiplier` configuration calls are
discarded by the source (no `?`, no `unwrap`), so a failing configuration
still yields a constructed `Servo` with the configuration not applied. -/
def Servo.new (channel : Int) (pwm_new_result : HalResult PWM) :
    RustOutcome Servo :=
  match pwm_new_result with
  | .error _ => .panicked
  | .ok pwm =>
    let pwm1 := (pwm.set_bounds (24/10) 0 0 0 (6/10)).1
    let pwm2 := (pwm1.set_period_multiplier PeriodMultiplier.Multiplier4x).1
    .ok { pwm := pwm2
          k_max_servo_angle := 180
          k_min_servo_angle := 0
          k_default_max_servo_pwm := 24/10
          k_default_min_servo_pwm := 6/10 }

/-- `Servo::set`: forwards to `pwm.set_position` and returns its result. -/
def Servo.set (s : Servo) (value : ℚ) : Servo × HalResult Unit :=
  ({ s with pwm := (s.pwm.set_position value).1 }, (s.pwm.set_position value).2)

/-- `Servo::get`: forwards to `pwm.position`. -/
def Servo.get (s : Servo) : HalResult ℚ :=
  PWM.position s.pwm

/-- `Servo::set_offline`: `self.pwm.set_raw(0)`. -/
def Servo.set_offline (s : Servo) : Servo × HalResult Unit :=
  ({ s with pwm := (s.pwm.set_raw 0).1 }, (s.pwm.set_raw 0).2)

/-- `Servo::get_servo_angle_range` (method form, reading `self`). -/
def Servo.get_servo_angle_range (s : Servo) : ℚ :=
  s.k_max_servo_angle - s.k_min_servo_angle

/-- `Servo::set_angle`: clamps the angle to the per-instance bounds, then
calls `set_position((angle - k_min) / angle_range).unwrap()` and returns
`Ok(())`. The `.unwrap()` makes an external-layer error a panic. -/
def Servo.set_angle (s : Servo) (new_angle_degrees : ℚ) : RustOutcome Servo :=
  let angle :=
    if new_angle_degrees < s.k_min_servo_angle then s.k_min_servo_angle
    else if new_angle_degrees > s.k_max_servo_angle then s.k_max_servo_angle
    else new_angle_degrees
  match s.pwm.set_position ((angle - s.k_min_servo_angle) / s.get_servo_angle_range) with
  | (_, .error _) => .panicked
  | (p, .ok _) => .ok { s with pwm := p }

/-- `Servo::angle`: `Ok(self.get()? * get_servo_angle_range() + k_min_servo_angle)`
(the source reads the free constants, not `self`). -/
def Servo.angle (s : Servo) : HalResult ℚ :=
  match s.get with
  | .error e => .error e
  | .ok p => .ok (p * servoAngleRangeConst + kMinServoAngleConst)

/-- `Servo::max_angle`: returns the free constant `k_max_servo_angle`. -/
def Servo.max_angle (_ : Servo) : ℚ :=
  kMaxServoAngleConst

/-- `Servo::min_angle`: returns the free constant `k_min_servo_angle`. -/
def Servo.min_angle (_ : Servo) : ℚ :=
  kMinServoAngleConst

/-- `Servo::set_raw`: forwards to `pwm.set_raw`. -/
def Servo.set_raw (s : Servo) (value : Int) : Servo × HalResult Unit :=
  ({ s with pwm := (s.pwm.set_raw value).1 }, (s.pwm.set_raw value).2)

/-- `Servo::raw`: forwards to `pwm.raw`. -/
def Servo.raw (s : Servo) : HalResult Int :=
  PWM.raw s.pwm

/-- `Servo::set_speed`: forwards to `pwm.set_speed`. -/
def Servo.set_speed (s : Servo) (sp : ℚ) : Servo × HalResult Unit :=
  ({ s with pwm := (s.pwm.set_speed sp).1 }, (s.pwm.set_speed sp).2)

/-- `Servo::speed`: the source body is `self.pwm.raw()` — it returns the raw
pulse value, not the stored speed (and is declared to return `f64` while the
body produces the raw integer). -/
def Servo.speed (s : Servo) : HalResult Int :=
  PWM.raw s.pwm

/-- `Servo::set_disabled`: forwards to `pwm.set_disabled`. -/
def Servo.set_disabled (s : Servo) : Servo × HalResult Unit :=
  ({ s with pwm := (s.pwm.set_disabled).1 }, (s.pwm.set_disabled).2)

/-- `Servo::set_period_multiplier`: the source drops its `mult` argument and
invokes `self.pwm.set_period_multiplier()` with no multiplier argument, so
no multiplier is forwarded; the stored multiplier is left unchanged and the
external layer's status is returned. -/
def Servo.set_period_multiplier (s : Servo) (mult : PeriodMultiplier) :
    Servo × HalResult Unit :=
  match s.pwm.halErr with
  | some e => (s, .error e)
  | none => (s, .ok ())

/-- `Servo::set_zero_latch`: forwards to `pwm.set_zero_latch`. -/
def Servo.set_zero_latch (s : Servo) : Servo × HalResult Unit :=
  ({ s with pwm := (s.pwm.set_zero_latch).1 }, (s.pwm.set_zero_latch).2)

/-- `Servo::enable_deadband_elimination`: the source drops its
`eliminate_deadband` argument and invokes the PWM call with no argument, so
the flag is not forwarded; the stored flag is left unchanged. -/
def Servo.enable_deadband_elimination (s : Servo) (eliminate_deadband : Bool) :
    Servo × HalResult Unit :=
  match s.pwm.halErr with
  | some e => (s, .error e)
  | none => (s, .ok ())

/-- `Servo::set_bounds`: forwards all five values to `pwm.set_bounds`. -/
def Servo.set_bounds (s : Servo) (bMax dbMax center dbMin bMin : ℚ) :
    Servo × HalResult Unit :=
  ({ s with pwm := (s.pwm.set_bounds bMax dbMax center dbMin bMin).1 },
   (s.pwm.set_bounds bMax dbMax center dbMin bMin).2)

/-- `Servo::channel`: forwards to `pwm.channel`. -/
def Servo.channel (s : Servo) : Int :=
  s.pwm.channel

/-- A fresh healthy PWM handle on channel 3, used as a concrete input. -/
def pwm0 : PWM :=
  { channel := 3
    halErr := none
    storedPosition := 0
    storedRaw := 0
    storedSpeed := 0
    period_multiplier := .Multiplier1x
    eliminate_deadband := false
    bounds := ⟨0, 0, 0, 0, 0⟩ }

/-- The `Servo` produced by `Servo.new 3 (.ok pwm0)`. -/
def servo0 : Servo :=
  { pwm := { pwm0 with
               bounds := ⟨24/10, 0, 0, 0, 6/10⟩
               period_multiplier := .Multiplier4x }
    k_max_servo_angle := 180
    k_min_servo_angle := 0
    k_default_max_servo_pwm := 24/10
    k_default_min_servo_pwm := 6/10 }

/-- `servo0` with the external layer failing with HAL error `-1`. -/
def servoErr : Servo :=
  { servo0 with pwm := { servo0.pwm with halErr := some (-1) } }

/-- `servo0` with a stored speed of 1/2 and a stored raw pulse of 1234. -/
def servoSpeedy : Servo :=
  { servo0 with pwm := { servo0.pwm with storedSpeed := 1/2, storedRaw := 1234 } }

/-- The states a `Servo` can be in: everything produced by `Servo::new` and
closed under the mutating wrapper operations, and under the external layer
starting or stopping to fail. -/
inductive Reachable : Servo → Prop where
  | base (channel : Int) (pwm : PWM) (s : Servo) :
      Servo.new channel (.ok pwm) = .ok s → Reachable s
  | env_err (s : Servo) (e : Option Int) :
      Reachable s → Reachable { s with pwm := { s.pwm with halErr := e } }
  | op_set (s : Servo) (v : ℚ) : Reachable s → Reachable (s.set v).1
  | op_set_offline (s : Servo) : Reachable s → Reachable s.set_offline.1
  | op_set_angle (s s' : Servo) (a : ℚ) :
      Reachable s → s.set_angle a = .ok s' → Reachable s'
  | op_set_raw (s : Servo) (v : Int) : Reachable s → Reachable (s.set_raw v).1
  | op_set_speed (s : Servo) (v : ℚ) : Reachable s → Reachable (s.set_speed v).1
  | op_set_disabled (s : Servo) : Reachable s → Reachable s.set_disabled.1
  | op_set_period_multiplier (s : Servo) (m : PeriodMultiplier) :
      Reachable s → Reachable (s.set_period_multiplier m).1
  | op_set_zero_latch (s : Servo) : Reachable s → Reachable s.set_zero_latch.1
  | op_enable_deadband_elimination (s : Servo) (b : Bool) :
      Reachable s → Reachable (s.enable_deadband_elimination b).1
  | op_set_bounds (s : Servo) (a b c d e : ℚ) :
      Reachable s → Reachable (s.set_bounds a b c d e).1

/-- Embedding of `io::Result<T>`; `io::Error::last_os_error()` is abstracted
to the single marker `ioError` (the code never inspects it). -/
inductive IoResult (α : Type) where
  | ok : α → IoResult α
  | ioError : IoResult α
deriving DecidableEq, Repr

/-- `SpiOptions` from `spi.rs`; all fields default to `false`. -/
structure SpiOptions where
  msb_first : Bool
  sample_on_trailing : Bool
  clk_idle_high : Bool
deriving DecidableEq, Repr

/-- The `Default` impl for `SpiOptions`. -/
def SpiOptions.defaultOpts : SpiOptions :=
  ⟨false, false, false⟩

/-- `pub struct Spi` from `spi.rs`: a HAL port plus the cached options. The
`Port` enum values are HAL constants; the stored `HAL_SPIPort::Type` is an
`Int` here. -/
structure Spi where
  port : Int
  opts : SpiOptions
deriving DecidableEq, Repr

/-- Responses of the HAL byte-oriented SPI calls, abstracted as functions of
the port and the request: each yields the raw return value (a byte count, or
negative on failure) and, for receiving calls, the bytes the HAL writes into
the caller's buffer. -/
structure SpiHal where
  writeSpi : Int → List Nat → Int
  readSpi : Int → Nat → Int × List Nat
  transactionSpi : Int → List Nat → Int × List Nat

/-- The `hal_call!` macro: a HAL status of 0 is success; any nonzero status
is wrapped as a `HalError` and returned as `Err`. -/
def hal_call {α : Type} (status : Int) (value : α) : HalResult α :=
  if status = 0 then .ok value else .error status

/-- `fn io_result` from `spi.rs`: a negative HAL return value becomes
`Err(io::Error::last_os_error())`, a non-negative one becomes
`Ok(rv as usize)`. -/
def io_result (rv : Int) : IoResult Nat :=
  if rv < 0 then .ioError else .ok rv.toNat

/-- `Spi::new`: `hal_call!(HAL_InitializeSPI(port))?` then `Ok(Spi)` with
default options. -/
def Spi.new (port : Int) (status : Int) : HalResult Spi :=
  match hal_call status () with
  | .error e => .error e
  | .ok _ => .ok { port := port, opts := SpiOptions.defaultOpts }

/-- `Spi::set_chip_select_active_high`: a single `hal_call!`. -/
def Spi.set_chip_select_active_high (s : Spi) (status : Int) : HalResult Unit :=
  hal_call status ()

/-- `Spi::set_chip_select_active_low`: a single `hal_call!`. -/
def Spi.set_chip_select_active_low (s : Spi) (status : Int) : HalResult Unit :=
  hal_call status ()

/-- `Spi::write`: `io_result(HAL_WriteSPI(port, data, len))`. -/
def Spi.write (s : Spi) (hal : SpiHal) (data : List Nat) : IoResult Nat :=
  io_result (hal.writeSpi s.port data)

/-- `Spi::transaction_into`: one `HAL_TransactionSPI` call; returns the
`io_result` of its return value together with the bytes the HAL stored into
the receive buffer. -/
def Spi.transaction_into (s : Spi) (hal : SpiHal) (to_send : List Nat) :
    IoResult Nat × List Nat :=
  (io_result (hal.transactionSpi s.port to_send).1,
   (hal.transactionSpi s.port to_send).2)

/-- `Spi::read`: with `initiate` it builds `vec![0; buf.len()]` and performs
`transaction_into` (receiving into `buf`); without it, a plain
`HAL_ReadSPI` of `buf.len()` bytes. The second component is the buffer
contents after the call. -/
def Spi.read (s : Spi) (hal : SpiHal) (initiate : Bool) (buf : List Nat) :
    IoResult Nat × List Nat :=
  if initiate then
    s.transaction_into hal (List.replicate buf.length 0)
  else
    (io_result (hal.readSpi s.port buf.length).1,
     (hal.readSpi s.port buf.length).2)

/-- `Spi::transaction`: `transaction_into` into a fresh buffer, then
`set_len(read)` keeps the first `read` received bytes. -/
def Spi.transaction (s : Spi) (hal : SpiHal) (to_send : List Nat) :
    IoResult (List Nat) :=
  match s.transaction_into hal to_send with
  | (.ioError, _) => .ioError
  | (.ok read, received) => .ok (received.take read)

/-- `pub struct AutoSpi(Spi)` from `spi.rs`. -/
structure AutoSpi where
  spi : Spi
deriving DecidableEq, Repr

/-- `AutoSpi::new`: `hal_call!(HAL_InitSPIAuto(spi.port, buffer_size))?`
then wraps the `Spi`. -/
def AutoSpi.new (spi : Spi) (buffer_size : Int) (status : Int) :
    HalResult AutoSpi :=
  match hal_call status () with
  | .error e => .error e
  | .ok _ => .ok { spi := spi }

/-- `AutoSpi::stop`: `let _ = hal_call!(HAL_FreeSPIAuto(..))` — the result
of the teardown call is discarded — then the inner `Spi` is returned. -/
def AutoSpi.stop (a : AutoSpi) (free_status : Int) : Spi :=
  a.spi

/-- `AutoSpi::set_transmit_data`: a single `hal_call!`. -/
def AutoSpi.set_transmit_data (a : AutoSpi) (to_send : List Nat)
    (zero_size : Int) (status : Int) : HalResult Unit :=
  hal_call status ()

/-- `AutoSpi::start_rate`: a single `hal_call!` (the period is passed as
seconds). -/
def AutoSpi.start_rate (a : AutoSpi) (period : ℚ) (status : Int) :
    HalResult Unit :=
  hal_call status ()

/-- `AutoSpi::pause`: a single `hal_call!` of `HAL_StopSPIAuto`. -/
def AutoSpi.pause (a : AutoSpi) (status : Int) : HalResult Unit :=
  hal_call status ()

/-- `AutoSpi::force_read`: a single `hal_call!`. -/
def AutoSpi.force_read (a : AutoSpi) (status : Int) : HalResult Unit :=
  hal_call status ()

/-- `AutoSpi::read_received_data`: a single `hal_call!` returning the word
count reported by the HAL. -/
def AutoSpi.read_received_data (a : AutoSpi) (buffer_len : Nat) (timeout : ℚ)
    (status : Int) (count : Int) : HalResult Int :=
  hal_call status count

/-- `AutoSpi::dropped_count`: `hal_call!(HAL_GetSPIAutoDroppedCount(..)).unwrap()`
— an error from the HAL is not returned (the signature is a bare `i32`); the
`.unwrap()` panics on it. -/
def AutoSpi.dropped_count (a : AutoSpi) (status : Int) (count : Int) :
    RustOutcome Int :=
  match hal_call status count with
  | .error _ => .panicked
  | .ok v => .ok v

/-- A fixed HAL response function used as a concrete input: every write
reports 2 bytes written, reads and transactions report as many bytes as
requested and deliver zero bytes. -/
def spiHalFixed : SpiHal :=
  { writeSpi := fun _ _ => 2
    readSpi := fun _ n => ((n : Int), List.replicate n 0)
    transactionSpi := fun _ send => ((send.length : Int), List.replicate send.length 0) }

/-- A concrete `Spi` on port 1 with default options. -/
def spi1 : Spi :=
  { port := 1, opts := SpiOptions.defaultOpts }

/-- A concrete `AutoSpi` wrapping `spi1`. -/
def autoSpi1 : AutoSpi :=
  { spi := spi1 }

/-- The clamp written as an if-chain in `Servo::set_angle` is the min/max
clamp to `[0, 180]`. -/
theorem clamp_chain_eq_min_max (a : ℚ) :
    (if a < 0 then (0 : ℚ) else if a > 180 then 180 else a)
      = min (max a 0) 180 := by
  rcases lt_or_le a 0 with h0 | h0
  · rw [if_pos h0, max_eq_right h0.le, min_eq_left (by norm_num)]
  · rw [if_neg (not_lt.mpr h0), max_eq_left h0]
    rcases lt_or_le (180 : ℚ) a with h1 | h1
    · rw [if_pos h1, min_eq_right h1.le]
    · rw [if_neg (not_lt.mpr h1), min_eq_left h1]

/-- C1: for every input angle `a`, `set_angle(a)` first clamps `a` to
`[0, 180]` (below 0 becomes 0, above 180 becomes 180, no error raised) and
then commands the normalized position `(clamped - 0) / (180 - 0)` to the
external layer; in particular `set_angle(0)` commands 0, `set_angle(90)`
commands 1/2 and `set_angle(180)` commands 1. -/
theorem set_angle_clamps_and_normalizes (s : Servo) (a : ℚ)
    (hmin : s.k_min_servo_angle = 0) (hmax : s.k_max_servo_angle = 180)
    (herr : s.pwm.halErr = none) :
    s.set_angle a = .ok { s with pwm :=
        { s.pwm with storedPosition := (min (max a 0) 180 - 0) / (180 - 0) } } ∧
    s.set_angle 0 = .ok { s with pwm := { s.pwm with storedPosition := 0 } } ∧
    s.set_angle 90 = .ok { s with pwm := { s.pwm with storedPosition := 1/2 } } ∧
    s.set_angle 180 = .ok { s with pwm := { s.pwm with storedPosition := 1 } } := by
  have general : ∀ b : ℚ, s.set_angle b = .ok { s with pwm :=
      { s.pwm with storedPosition := (min (max b 0) 180 - 0) / (180 - 0) } } := by
    intro b
    simp only [Servo.set_angle, Servo.get_servo_angle_range, PWM.set_position,
      hmin, hmax, herr, ← clamp_chain_eq_min_max b]
  refine ⟨general a, ?_, ?_, ?_⟩
  · rw [general 0]; norm_num
  · rw [general 90]; norm_num
  · rw [general 180]; norm_num

/-- C1 witness: the claim evaluated on the concrete servo `servo0` at the
angle 90. -/
theorem set_angle_clamps_and_normalizes_witness :
    servo0.set_angle 90 = .ok { servo0 with pwm :=
        { servo0.pwm with storedPosition := (min (max (90:ℚ) 0) 180 - 0) / (180 - 0) } } ∧
    servo0.set_angle 0 = .ok { servo0 with pwm := { servo0.pwm with storedPosition := 0 } } ∧
    servo0.set_angle 90 = .ok { servo0 with pwm := { servo0.pwm with storedPosition := 1/2 } } ∧
    servo0.set_angle 180 = .ok { servo0 with pwm := { servo0.pwm with storedPosition := 1 } } :=
  set_angle_clamps_and_normalizes servo0 90 rfl rfl rfl

/-- C2: for every angle `a` in `[0, 180]`, `set_angle(a)` followed by
`angle()` returns exactly `a`, given the external layer stores and returns
the normalized position it was given (`angle()` computes
`position * (max - min) + min`, the inverse of the `set_angle` mapping). -/
theorem set_angle_angle_roundtrip (s : Servo) (a : ℚ)
    (h0 : 0 ≤ a) (h180 : a ≤ 180)
    (hmin : s.k_min_servo_angle = 0) (hmax : s.k_max_servo_angle = 180)
    (herr : s.pwm.halErr = none) :
    ∃ s2, s.set_angle a = .ok s2 ∧ s2.angle = .ok a := by
  refine ⟨{ s with pwm := { s.pwm with storedPosition := (a - 0) / (180 - 0) } }, ?_, ?_⟩
  · simp only [Servo.set_angle, Servo.get_servo_angle_range, PWM.set_position,
      hmin, hmax, herr, if_neg (not_lt.mpr h0), if_neg (not_lt.mpr h180)]
  · simp only [Servo.angle, Servo.get, PWM.position, herr]
    have : (a - 0) / (180 - 0) * servoAngleRangeConst + kMinServoAngleConst = a := by
      simp only [servoAngleRangeConst, kMinServoAngleConst, kMaxServoAngleConst]
      norm_num
    rw [this]

/-- C2 witness: the round trip evaluated on `servo0` at the angle 45. -/
theorem set_angle_angle_roundtrip_witness :
    ∃ s2, servo0.set_angle 45 = .ok s2 ∧ s2.angle = .ok 45 :=
  set_angle_angle_roundtrip servo0 45 (by norm_num) (by norm_num) rfl rfl rfl

/-- C3: the claim fails on the code. When channel acquisition fails
(`PWM::new` returns an `Err`), `Servo::new` panics on `.unwrap()` instead
of propagating the error; and when the configuration call fails, its error
is silently discarded and a `Servo` whose bounds were never configured is
still returned. -/
theorem servo_new_panics_instead_of_propagating :
    Servo.new 3 (.error (-1029)) = .panicked ∧
    Servo.new 3 (.error (-1029)) ≠ .err (-1029) ∧
    (∃ s, Servo.new 3 (.ok { pwm0 with halErr := some (-1) }) = .ok s ∧
      s.pwm.bounds = pwm0.bounds ∧
      s.pwm.period_multiplier = pwm0.period_multiplier) := by
  refine ⟨rfl, by decide, ⟨_, rfl, rfl, rfl⟩⟩

/-- C4: the claim fails on the code at `set_angle`. With the external layer
failing with HAL error `-1`, `Servo::set` and `Servo::get` do return the
error unchanged, but `Servo::set_angle` panics on its internal `.unwrap()`
instead of returning the error — a new failure mode the claim rules out. -/
theorem set_angle_panics_on_hal_error :
    servoErr.set_angle 90 = .panicked ∧
    (servoErr.set (1/2)).2 = .error (-1) ∧
    servoErr.get = .error (-1) := by
  refine ⟨rfl, rfl, rfl⟩

/-- C5: on a servo whose external layer is healthy, `set_offline` and
`set_disabled` both leave a zero raw pulse command in the external layer,
whatever raw value was previously commanded, and both succeed. -/
theorem offline_and_disabled_command_zero_raw (s : Servo)
    (herr : s.pwm.halErr = none) :
    (s.set_offline.1.pwm.storedRaw = 0 ∧ s.set_offline.2 = .ok ()) ∧
    (s.set_disabled.1.pwm.storedRaw = 0 ∧ s.set_disabled.2 = .ok ()) := by
  constructor
  · simp [Servo.set_offline, PWM.set_raw, herr]
  · simp [Servo.set_disabled, PWM.set_disabled, herr]

/-- C5 witness: evaluated on `servo0` with a previously commanded raw value
of 77. -/
theorem offline_and_disabled_command_zero_raw_witness :
    ((Servo.set_offline { servo0 with pwm := { servo0.pwm with storedRaw := 77 } }).1.pwm.storedRaw = 0 ∧
      (Servo.set_offline { servo0 with pwm := { servo0.pwm with storedRaw := 77 } }).2 = .ok ()) ∧
    ((Servo.set_disabled { servo0 with pwm := { servo0.pwm with storedRaw := 77 } }).1.pwm.storedRaw = 0 ∧
      (Servo.set_disabled { servo0 with pwm := { servo0.pwm with storedRaw := 77 } }).2 = .ok ()) :=
  offline_and_disabled_command_zero_raw
    { servo0 with pwm := { servo0.pwm with storedRaw := 77 } } rfl

/-- C6: for every servo, `max_angle()` returns 180 and `min_angle()`
returns 0, unconditionally (both read fixed constants). -/
theorem max_min_angle_constant (s : Servo) :
    s.max_angle = 180 ∧ s.min_angle = 0 :=
  ⟨rfl, rfl⟩

/-- C7: the claim fails on the code. On a servo whose external layer stores
speed 1/2 and raw pulse 1234: `speed()` returns the raw pulse value 1234
(its body is `self.pwm.raw()`), not the stored speed; and
`set_period_multiplier` and `enable_deadband_elimination` drop their
arguments (the result is independent of the argument and the stored values
are unchanged), so nothing is forwarded. -/
theorem accessors_do_not_forward :
    servoSpeedy.speed = .ok 1234 ∧
    PWM.speed servoSpeedy.pwm = .ok (1/2) ∧
    servoSpeedy.set_period_multiplier .Multiplier2x
      = servoSpeedy.set_period_multiplier .Multiplier4x ∧
    (servoSpeedy.set_period_multiplier .Multiplier2x).1.pwm.period_multiplier
      = servoSpeedy.pwm.period_multiplier ∧
    servoSpeedy.enable_deadband_elimination true
      = servoSpeedy.enable_deadband_elimination false ∧
    (servoSpeedy.enable_deadband_elimination true).1.pwm.eliminate_deadband
      = servoSpeedy.pwm.eliminate_deadband := by
  refine ⟨rfl, rfl, rfl, rfl, rfl, rfl⟩

/-- C8: every reachable servo state satisfies the invariant
`min_angle < max_angle`, so the angle-range divisor used by `set_angle` is
strictly positive: `Servo::new` fixes the per-instance constants to 0 and
180 and no operation writes to them. -/
theorem reachable_angle_range_positive (s : Servo) (h : Reachable s) :
    s.k_min_servo_angle < s.k_max_servo_angle ∧ 0 < s.get_servo_angle_range := by
  have key : s.k_min_servo_angle = 0 ∧ s.k_max_servo_angle = 180 := by
    induction h with
    | base channel pwm s hnew =>
      simp only [Servo.new, RustOutcome.ok.injEq] at hnew
      subst hnew
      exact ⟨rfl, rfl⟩
    | env_err s e _ ih => exact ih
    | op_set s v _ ih => exact ih
    | op_set_offline s _ ih => exact ih
    | op_set_angle s s2 a _ heq ih =>
      cases hE : s.pwm.halErr with
      | some e => simp [Servo.set_angle, PWM.set_position, hE] at heq
      | none =>
        simp only [Servo.set_angle, Servo.get_servo_angle_range, PWM.set_position,
          hE, RustOutcome.ok.injEq] at heq
        subst heq
        exact ih
    | op_set_raw s v _ ih => exact ih
    | op_set_speed s v _ ih => exact ih
    | op_set_disabled s _ ih => exact ih
    | op_set_period_multiplier s m _ ih =>
      cases hE : s.pwm.halErr <;>
        simpa [Servo.set_period_multiplier, hE] using ih
    | op_set_zero_latch s _ ih => exact ih
    | op_enable_deadband_elimination s b _ ih =>
      cases hE : s.pwm.halErr <;>
        simpa [Servo.enable_deadband_elimination, hE] using ih
    | op_set_bounds s a b c d e _ ih => exact ih
  rw [Servo.get_servo_angle_range, key.1, key.2]
  norm_num

/-- C8 witness: the invariant evaluated at the concrete state produced by
`Servo.new 3 (.ok pwm0)`. -/
theorem reachable_angle_range_positive_witness :
    servo0.k_min_servo_angle < servo0.k_max_servo_angle ∧
      0 < servo0.get_servo_angle_range :=
  reachable_angle_range_positive servo0 (Reachable.base 3 pwm0 servo0 rfl)

/-- C9 counterexample: `AutoSpi::dropped_count` is a second place where an
external-layer error is not surfaced to the caller: on HAL status −1 it
panics on `.unwrap()` instead of returning the error, so `AutoSpi::stop` is
not the single exception the claim states. -/
theorem dropped_count_does_not_surface_error :
    autoSpi1.dropped_count (-1) 7 = .panicked ∧
    autoSpi1.dropped_count (-1) 7 ≠ .err (-1) ∧
    autoSpi1.dropped_count (-1) 7 ≠ .ok 7 := by
  refine ⟨rfl, by decide, by decide⟩

/-- C9 (amended): no operation of the SPI wrapper or the auto-transfer
engine wrapper retries, and every external-layer error is surfaced
unchanged to the caller, with two exceptions: `AutoSpi::stop` discards the
error of its best-effort teardown call, and `AutoSpi::dropped_count` panics
on its error instead of returning it. -/
theorem spi_errors_surfaced_unchanged (status : Int) (h : status < 0)
    (sp : Spi) (a : AutoSpi) (hal : SpiHal) (data : List Nat)
    (buffer_size zero_size count : Int) (period timeout : ℚ) (buffer_len : Nat) :
    Spi.new 1 status = .error status ∧
    sp.set_chip_select_active_high status = .error status ∧
    sp.set_chip_select_active_low status = .error status ∧
    sp.write hal data = io_result (hal.writeSpi sp.port data) ∧
    io_result status = .ioError ∧
    AutoSpi.new sp buffer_size status = .error status ∧
    a.set_transmit_data data zero_size status = .error status ∧
    a.start_rate period status = .error status ∧
    a.pause status = .error status ∧
    a.force_read status = .error status ∧
    a.read_received_data buffer_len timeout status count = .error status ∧
    a.stop status = a.spi ∧
    a.dropped_count status count = .panicked := by
  have hne : status ≠ 0 := by omega
  refine ⟨?_, ?_, ?_, rfl, ?_, ?_, ?_, ?_, ?_, ?_, ?_, rfl, ?_⟩ <;>
    simp [Spi.new, Spi.set_chip_select_active_high, Spi.set_chip_select_active_low,
      AutoSpi.new, AutoSpi.set_transmit_data, AutoSpi.start_rate, AutoSpi.pause,
      AutoSpi.force_read, AutoSpi.read_received_data, AutoSpi.dropped_count,
      hal_call, io_result, hne, h]

/-- C9 witness: the amended claim evaluated at HAL status −1 on concrete
wrapper values. -/
theorem spi_errors_surfaced_unchanged_witness :
    Spi.new 1 (-1) = .error (-1) ∧
    spi1.set_chip_select_active_high (-1) = .error (-1) ∧
    spi1.set_chip_select_active_low (-1) = .error (-1) ∧
    spi1.write spiHalFixed [10, 20] = io_result (spiHalFixed.writeSpi spi1.port [10, 20]) ∧
    io_result (-1) = .ioError ∧
    AutoSpi.new spi1 1024 (-1) = .error (-1) ∧
    autoSpi1.set_transmit_data [10, 20] 3 (-1) = .error (-1) ∧
    autoSpi1.start_rate (1/100) (-1) = .error (-1) ∧
    autoSpi1.pause (-1) = .error (-1) ∧
    autoSpi1.force_read (-1) = .error (-1) ∧
    autoSpi1.read_received_data 4 (1/10) (-1) 9 = .error (-1) ∧
    autoSpi1.stop (-1) = autoSpi1.spi ∧
    autoSpi1.dropped_count (-1) 9 = .panicked :=
  spi_errors_surfaced_unchanged (-1) (by norm_num) spi1 autoSpi1 spiHalFixed
    [10, 20] 1024 3 9 (1/100) (1/10) 4

/-- C10: `Spi::read` with `initiate = true` performs one combined
send/receive HAL transaction transmitting exactly `buf.len()` zero bytes,
storing the received bytes into the buffer and returning the received byte
count through `io_result`; with `initiate = false` it performs a plain HAL
read of `buf.len()` bytes with no transaction; and `io_result` maps a
negative HAL return value to an error and a non-negative one to
`Ok(count)`. -/
theorem spi_read_semantics (sp : Spi) (hal : SpiHal) (buf : List Nat) :
    sp.read hal true buf = sp.transaction_into hal (List.replicate buf.length 0) ∧
    sp.read hal true buf =
      (io_result (hal.transactionSpi sp.port (List.replicate buf.length 0)).1,
       (hal.transactionSpi sp.port (List.replicate buf.length 0)).2) ∧
    sp.read hal false buf =
      (io_result (hal.readSpi sp.port buf.length).1,
       (hal.readSpi sp.port buf.length).2) ∧
    (∀ rv : Int, io_result rv = if rv < 0 then .ioError else .ok rv.toNat) :=
  ⟨rfl, rfl, rfl, fun _ => rfl⟩
